import Mathlib

/-!
Shallow embedding of the service-worker initialization script
(`assets/javascript/sw-init.js`) of a static-blog repository, together with
proofs about the update-notification flow, the metadata processor, the
site-version/timeout race and the first-install pre-cache listener.

JavaScript numbers are modelled by `SwInit.JSNum`: `NaN`, the two infinities,
and exact integers.  Version strings and the payloads arriving from the
service worker only ever produce integer-valued numbers (or `NaN`), so the
integer model is faithful on every value the script manipulates; numeric
literals denoting non-integral values (such as `"5e-1"`) are mapped to `nan`
and are outside the scope of the claims proved here, as is double rounding of
integers at or above 2^53.
-/

namespace SwInit

/-- JavaScript number, restricted to `NaN`, `±Infinity` and exact integers. -/
inductive JSNum
  | nan
  | inf
  | negInf
  | num (v : Int)
deriving DecidableEq, Repr

/-- JavaScript truthiness of a number: `NaN` and `0` are falsy. -/
def JSNum.truthy : JSNum → Bool
  | .nan => false
  | .inf => true
  | .negInf => true
  | .num v => v != 0

/-- JavaScript `<=` on numbers: any comparison involving `NaN` is false. -/
def JSNum.jsLe : JSNum → JSNum → Bool
  | .nan, _ => false
  | _, .nan => false
  | .negInf, _ => true
  | _, .inf => true
  | .inf, _ => false
  | _, .negInf => false
  | .num a, .num b => a ≤ b

/-- JavaScript `x || y` specialised to numbers: `y` when `x` is falsy. -/
def JSNum.jsOr (x y : JSNum) : JSNum :=
  if x.truthy then x else y

/-- JavaScript unary negation on the number model. -/
def JSNum.neg : JSNum → JSNum
  | .nan => .nan
  | .inf => .negInf
  | .negInf => .inf
  | .num v => .num (-v)

/-- Whitespace characters stripped by `Number(string)` coercion (ASCII
whitespace; the less common Unicode space code points never appear in the
version strings this script handles). -/
def jsWhitespace (c : Char) : Bool :=
  c = ' ' || c = '\t' || c = '\n' || c = '\r' || c = '\x0b' || c = '\x0c'

/-- Leading- and trailing-whitespace trim, as performed by `Number(string)`. -/
def jsTrim (cs : List Char) : List Char :=
  ((cs.dropWhile jsWhitespace).reverse.dropWhile jsWhitespace).reverse

/-- Value of a decimal digit character, `none` otherwise. -/
def decDigitVal? (c : Char) : Option Nat :=
  if c.isDigit then some (c.toNat - 48) else none

/-- Value of a hexadecimal digit character, `none` otherwise. -/
def hexDigitVal? (c : Char) : Option Nat :=
  if c.isDigit then some (c.toNat - 48)
  else if 'a' ≤ c && c ≤ 'f' then some (c.toNat - 87)
  else if 'A' ≤ c && c ≤ 'F' then some (c.toNat - 55)
  else none

/-- Value of a binary digit character, `none` otherwise. -/
def binDigitVal? (c : Char) : Option Nat :=
  if c = '0' then some 0 else if c = '1' then some 1 else none

/-- Value of an octal digit character, `none` otherwise. -/
def octDigitVal? (c : Char) : Option Nat :=
  if '0' ≤ c && c ≤ '7' then some (c.toNat - 48) else none

/-- Horner evaluation of a non-empty digit string in the given base;
`none` when the string is empty or contains a non-digit. -/
def parseRadixDigits (base : Nat) (dig : Char → Option Nat) (cs : List Char) :
    Option Nat :=
  if cs.isEmpty then none
  else cs.foldl (fun acc c => acc.bind fun a => (dig c).map fun d => a * base + d)
    (some 0)

/-- Exponent part of a decimal literal: optional sign followed by digits. -/
def parseExpPart (cs : List Char) : Option Int :=
  if cs.take 1 = ['+'] then
    (parseRadixDigits 10 decDigitVal? (cs.drop 1)).map Int.ofNat
  else if cs.take 1 = ['-'] then
    (parseRadixDigits 10 decDigitVal? (cs.drop 1)).map (fun n => -(n : Int))
  else
    (parseRadixDigits 10 decDigitVal? cs).map Int.ofNat

/-- Apply a decimal exponent to a mantissa.  A negative exponent that does not
divide the mantissa would denote a non-integral number, which the integer
model cannot represent; such values are mapped to `nan` and never arise from
the version strings this script compares. -/
def applyExp (m : Nat) (e : Int) : JSNum :=
  if 0 ≤ e then .num (m * 10 ^ e.toNat)
  else if ((10 : Int) ^ (-e).toNat) ∣ (m : Int) then
    .num ((m : Int) / 10 ^ (-e).toNat)
  else .nan

/-- Unsigned decimal literal with optional exponent (`123`, `123e4`): the
leading digit run is the mantissa, what follows must be empty or an
exponent part. -/
def parseDecimal (cs : List Char) : Option JSNum :=
  match parseRadixDigits 10 decDigitVal? (cs.takeWhile (·.isDigit)) with
  | none => none
  | some m =>
    if (cs.dropWhile (·.isDigit)).isEmpty then some (.num m)
    else if (cs.dropWhile (·.isDigit)).take 1 = ['e']
        || (cs.dropWhile (·.isDigit)).take 1 = ['E'] then
      (parseExpPart ((cs.dropWhile (·.isDigit)).drop 1)).map (applyExp m)
    else none

/-- Literal that may carry a sign: `Infinity` or a decimal literal. -/
def parseSignable (cs : List Char) : Option JSNum :=
  if cs = "Infinity".data then some .inf else parseDecimal cs

/-- ECMAScript string numeric literal (after trimming): signed decimal or
`Infinity`, or an unsigned hex/binary/octal literal. -/
def parseNumeric (cs : List Char) : Option JSNum :=
  if cs.take 1 = ['+'] then parseSignable (cs.drop 1)
  else if cs.take 1 = ['-'] then (parseSignable (cs.drop 1)).map JSNum.neg
  else if cs.take 2 = ['0', 'x'] || cs.take 2 = ['0', 'X'] then
    (parseRadixDigits 16 hexDigitVal? (cs.drop 2)).map (fun n => .num n)
  else if cs.take 2 = ['0', 'b'] || cs.take 2 = ['0', 'B'] then
    (parseRadixDigits 2 binDigitVal? (cs.drop 2)).map (fun n => .num n)
  else if cs.take 2 = ['0', 'o'] || cs.take 2 = ['0', 'O'] then
    (parseRadixDigits 8 octDigitVal? (cs.drop 2)).map (fun n => .num n)
  else parseSignable cs

/-- JavaScript `Number(string)`: trim whitespace, the empty string is `0`,
otherwise parse a numeric literal, anything else is `NaN`. -/
def jsStringToNumber (s : String) : JSNum :=
  match jsTrim s.data with
  | [] => .num 0
  | cs => (parseNumeric cs).getD .nan

/-- JavaScript `version.split('.')[0]`: the prefix before the first dot
(the whole string when it has no dot; empty when it starts with a dot). -/
def jsSplitHead (s : String) : String :=
  ⟨s.data.takeWhile (· != '.')⟩

/-- Major version as computed on lines 66-67 of `sw-init.js`:
`Number(version.split('.')[0])`. -/
def majorVersionOf (version : String) : JSNum :=
  jsStringToNumber (jsSplitHead version)

/-- `NULL_VALUE` from `analytics.js`: the "unknown" sentinel string. -/
def NULL_VALUE : String := "(not set)"

/-- Version metadata object attached to an update payload.  `none` fields
model absent (`undefined`) properties. -/
structure Metadata where
  version : Option String
  buildTime : Option Int
deriving DecidableEq, Repr

/-- Payload of an `UPDATE_AVAILABLE` message.  A `none` metadata field models
an absent property (or, observationally, any value whose property access
throws, such as `null`). -/
structure Payload where
  oldMetadata : Option Metadata
  newMetadata : Option Metadata
deriving DecidableEq, Repr

/-- The object built on lines 72-78 of `sw-init.js` when no exception
occurred. -/
structure MetaFields where
  oldVersion : String
  oldMajorVersion : JSNum
  newVersion : String
  newMajorVersion : JSNum
  timeSinceNewVersionDeployed : JSNum
deriving DecidableEq, Repr

/-- Result of `processMetadata`: the field object, or the `{error}` object
produced by the `catch` block. -/
inductive ProcResult
  | fields (f : MetaFields)
  | error
deriving DecidableEq, Repr

/-- Body of the `try` block of `processMetadata` (lines 61-78).  Accessing
`.version` on an absent metadata object throws, modelled by `Except.error`. -/
def processMetadataBody (now : Int) (payload : Payload) :
    Except Unit MetaFields :=
  match payload.oldMetadata with
  | none => .error ()
  | some oldMetadata =>
    match payload.newMetadata with
    | none => .error ()
    | some newMetadata =>
      let oldVersion := oldMetadata.version.getD ""
      let newVersion := newMetadata.version.getD ""
      let oldMajorVersion := majorVersionOf oldVersion
      let newMajorVersion := majorVersionOf newVersion
      let timeSinceNewVersionDeployed :=
        match newMetadata.buildTime with
        | some buildTime => JSNum.num (now - buildTime)
        | none => JSNum.nan
      .ok ⟨oldVersion, oldMajorVersion, newVersion, newMajorVersion,
        timeSinceNewVersionDeployed⟩

/-- `processMetadata` (lines 60-82): run the body, catching any throw and
returning `{error}` instead.  `now` stands for `Date.now()`. -/
def processMetadata (now : Int) (payload : Payload) : ProcResult :=
  match processMetadataBody now payload with
  | .ok f => .fields f
  | .error _ => .error

/-- The five bindings destructured from `processMetadata`'s result on lines
140-146.  When the result is `{error}` all five are `undefined`; `undefined`
is observationally equal to the values chosen here in every use the handler
makes of them: it is falsy (like `""` and `nan`), `undefined || 0` is `0`
(like `nan || 0`), `undefined && _` is falsy, and `_ <= undefined` compares
false (like `nan`). -/
def destructuredMeta (r : ProcResult) : MetaFields :=
  match r with
  | .fields f => f
  | .error => ⟨"", JSNum.nan, "", JSNum.nan, JSNum.nan⟩

/-- One analytics event as sent by `ga('send', 'event', {...})`. -/
structure GAEvent where
  eventCategory : String
  eventAction : String
  eventValue : JSNum
  eventLabel : String
deriving DecidableEq, Repr

/-- The argument of `messages.add` on lines 173-183: the user-visible update
prompt, carrying the events its two callbacks would send. -/
structure NotificationRequest where
  body : String
  action : String
  onActionEvent : GAEvent
  onDismissEvent : GAEvent
deriving DecidableEq, Repr

/-- Observable outcome of one run of the `UPDATE_AVAILABLE` branch: the
analytics events sent during the run (in order) and the notification request
handed to `messages.add`, if any. -/
structure UpdateHandlerResult where
  events : List GAEvent
  notification : Option NotificationRequest
deriving DecidableEq, Repr

/-- The `sendEvent` closure of lines 148-156: value is
`timeSinceNewVersionDeployed || 0`, label is
`newVersion ? (oldVersion || NULL_VALUE) => newVersion : NULL_VALUE`. -/
def sendEventOf (f : MetaFields) (eventCategory eventAction : String) :
    GAEvent :=
  { eventCategory := eventCategory
    eventAction := eventAction
    eventValue := f.timeSinceNewVersionDeployed.jsOr (.num 0)
    eventLabel :=
      if f.newVersion ≠ "" then
        (if f.oldVersion ≠ "" then f.oldVersion else NULL_VALUE)
          ++ " => " ++ f.newVersion
      else NULL_VALUE }

/-- The `UPDATE_AVAILABLE` branch of `addSWUpdateListener` (lines 134-186).
`initialSWState` is the string imported from `sw-state.js` and compared
against `'controlled'`; `now` stands for `Date.now()`. -/
def handleUpdateAvailable (initialSWState : String) (now : Int)
    (payload : Payload) : UpdateHandlerResult :=
  let f := destructuredMeta (processMetadata now payload)
  -- let shouldNotifyUser = true (line 138)
  let shouldNotifyUser := true
  -- if (newMajorVersion && newMajorVersion <= oldMajorVersion) (line 163)
  let shouldNotifyUser :=
    if f.newMajorVersion.truthy && f.newMajorVersion.jsLe f.oldMajorVersion
    then false else shouldNotifyUser
  -- if (initialSWState !== 'controlled') (line 168)
  let shouldNotifyUser :=
    if initialSWState ≠ "controlled" then false else shouldNotifyUser
  { events :=
      [sendEventOf f "Service Worker" "sw-update"] ++
        (if shouldNotifyUser
         then [sendEventOf f "Messages" "sw-update-notify"] else [])
    notification :=
      if shouldNotifyUser then
        some
          { body := "A newer version of this site is available."
            action := "Reload"
            onActionEvent := sendEventOf f "Messages" "sw-update-reload"
            onDismissEvent := sendEventOf f "Messages" "sw-update-dismiss" }
      else none }

/-- Telemetry dimension `dimensions.SITE_VERSION`; the literal dimension id
lives in `analytics.js`, whose value is irrelevant to the claims, so an
opaque token is used. -/
def SITE_VERSION : String := "SITE_VERSION"

/-- Environment of one run of `setSiteVersionOrTimeout`: the initial worker
state and the worker's reply to `GET_METADATA` (arrival time in ms and the
`version` it carries), or `none` when the worker never replies. -/
structure SiteVersionEnv where
  initialSWState : String
  workerReply : Option (Nat × String)
deriving DecidableEq, Repr

/-- Observable outcome of one run of `setSiteVersionOrTimeout`. -/
structure SiteVersionRun where
  messagesSent : List String
  resolvedAt : Nat
  gaSets : List (String × String)
deriving DecidableEq, Repr

/-- The calls to `resolve` the promise executor of lines 14-23 can make, as
(time, version) pairs in registration order: the synchronous sentinel resolve
when the page is uncontrolled (line 17), the `messageSW` reply (line 20), and
the 3000 ms timeout (line 22). -/
def svResolveCalls (env : SiteVersionEnv) : List (Nat × String) :=
  (if env.initialSWState ≠ "controlled" then [(0, NULL_VALUE)] else []) ++
    (match env.workerReply with
     | some reply => [reply]
     | none => []) ++
    [(3000, NULL_VALUE)]

/-- A promise keeps the first `resolve` call: earliest time wins, ties go to
the earlier-registered call; later calls are discarded. -/
def firstResolve : List (Nat × String) → Option (Nat × String)
  | [] => none
  | x :: xs =>
    match firstResolve xs with
    | none => some x
    | some y => if y.1 < x.1 then some y else some x

/-- `setSiteVersionOrTimeout` (lines 12-26): `wb.messageSW({type:
'GET_METADATA'})` is invoked unconditionally (the uncontrolled-page `resolve`
on line 17 is not followed by a `return`), the promise settles on the first
`resolve`, and the awaited version is written to the `SITE_VERSION` dimension
by a single `ga('set', ...)` call. -/
def setSiteVersionOrTimeout (env : SiteVersionEnv) : SiteVersionRun :=
  let r := (firstResolve (svResolveCalls env)).getD (3000, NULL_VALUE)
  { messagesSent := ["GET_METADATA"]
    resolvedAt := r.1
    gaSets := [(SITE_VERSION, r.2)] }

/-- JavaScript `s.includes(sub)` for strings. -/
def jsIncludes (s sub : String) : Bool :=
  (List.range (s.data.length + 1)).any
    (fun i => sub.data.isPrefixOf (s.data.drop i))

/-- Page state read by the `installed` listener: `location.href` and the
names of the entries of `performance.getEntriesByType('resource')`. -/
structure PageResources where
  href : String
  resources : List String
deriving DecidableEq, Repr

/-- One element of `urlsToCache`: a bare URL string, or a `[url, {mode}]`
pair. -/
inductive CacheEntry
  | url (u : String)
  | urlWithMode (u : String) (mode : String)
deriving DecidableEq, Repr

/-- Message sent to the worker by the `installed` listener. -/
structure WorkerMessage where
  type : String
  urlsToCache : List CacheEntry
deriving DecidableEq, Repr

/-- The `urlsToCache` array built on lines 88-100: the page URL first, then
every already-fetched resource, with the analytics.js script wrapped as a
`no-cors` pair. -/
def urlsToCache (page : PageResources) : List CacheEntry :=
  CacheEntry.url page.href ::
    page.resources.map (fun url =>
      if jsIncludes url "google-analytics.com/analytics.js" then
        CacheEntry.urlWithMode url "no-cors"
      else CacheEntry.url url)

/-- The `installed` listener of `addFirstInstalledListener` (lines 85-106):
on a first install (`isUpdate` false) it sends one `CACHE_URLS` message, on
an update it sends nothing. -/
def installedHandler (isUpdate : Bool) (page : PageResources) :
    Option WorkerMessage :=
  if !isUpdate then
    some { type := "CACHE_URLS", urlsToCache := urlsToCache page }
  else none

/-- Value the spec assigns to the `sw-update` telemetry event: the elapsed
time since the new version was built, or `0` when that time is unknown.
Stated from the spec's words, to be compared with the handler's output. -/
def expectedUpdateValue (now : Int) (p : Payload) : JSNum :=
  match p.oldMetadata, p.newMetadata with
  | some _, some newMetadata =>
    match newMetadata.buildTime with
    | some buildTime => .num (now - buildTime)
    | none => .num 0
  | _, _ => .num 0

/-- Label the spec assigns to the `sw-update` telemetry event: old and new
version strings combined, with the unknown sentinel when either side is
unavailable.  Stated from the spec's words. -/
def expectedUpdateLabel (p : Payload) : String :=
  match p.oldMetadata, p.newMetadata with
  | some oldMetadata, some newMetadata =>
    match newMetadata.version with
    | some newVersion =>
      if newVersion ≠ "" then
        (if oldMetadata.version.getD "" ≠ "" then oldMetadata.version.getD ""
         else NULL_VALUE) ++ " => " ++ newVersion
      else NULL_VALUE
    | none => NULL_VALUE
  | _, _ => NULL_VALUE

/-- Metadata object with the given version string and build time `0`. -/
def mdV (v : String) : Metadata := ⟨some v, some 0⟩

/-- Payload carrying the two given version strings (build time `0`). -/
def payloadOf (oldV newV : String) : Payload := ⟨some (mdV oldV), some (mdV newV)⟩

/-- Payload with both metadata objects absent. -/
def payloadEmpty : Payload := ⟨none, none⟩

/-! ## Theorems -/

/-- C3: `processMetadata` always returns normally — its result is either the
field object or the `{error}` object, the latter exactly when the unguarded
body would throw — and any payload missing `oldMetadata` or `newMetadata`
yields the `{error}` result, which carries none of the version fields. -/
theorem processMetadata_total_and_guarded (now : Int) (payload : Payload) :
    ((∃ f, processMetadata now payload = .fields f) ∨
      processMetadata now payload = .error) ∧
    (processMetadata now payload = .error ↔
      processMetadataBody now payload = .error ()) ∧
    ((payload.oldMetadata = none ∨ payload.newMetadata = none) →
      processMetadata now payload = .error) := by
  obtain ⟨o, n⟩ := payload
  cases o <;> cases n <;>
    simp [processMetadata, processMetadataBody]

/-- Witness for C3 at a payload missing `oldMetadata`. -/
theorem processMetadata_total_and_guarded_witness :
    processMetadata 0 ⟨none, some (mdV "1.0.0")⟩ = .error :=
  (processMetadata_total_and_guarded 0 ⟨none, some (mdV "1.0.0")⟩).2.2
    (Or.inl rfl)

/-- C5: when the page was not initially controlled, the `UPDATE_AVAILABLE`
handler never hands a notification request to the presenter, whatever the
payload. -/
theorem uncontrolled_never_notifies (initialSWState : String) (now : Int)
    (payload : Payload) (h : initialSWState ≠ "controlled") :
    (handleUpdateAvailable initialSWState now payload).notification = none := by
  unfold handleUpdateAvailable
  simp [h]

/-- Witness for C5 at the uncontrolled state and an empty payload. -/
theorem uncontrolled_never_notifies_witness :
    (handleUpdateAvailable "uncontrolled" 0 payloadEmpty).notification =
      none :=
  uncontrolled_never_notifies "uncontrolled" 0 payloadEmpty (by decide)

/-- C2 counterexample: the claim omits the worker-control condition — on an
uncontrolled page a malformed payload (an `{error}` result) produces no
notification request. -/
theorem error_payload_uncontrolled_shows_nothing :
    processMetadata 0 payloadEmpty = .error ∧
    (handleUpdateAvailable "uncontrolled" 0 payloadEmpty).notification =
      none := by
  exact ⟨rfl, rfl⟩

/-- C2 (amended): on a page that was initially controlled, every payload on
which `processMetadata` returns `{error}` still produces a notification
request and a `sw-update-notify` event — an error is never a reason to
suppress the prompt. -/
theorem error_payload_notifies_when_controlled (now : Int) (payload : Payload)
    (h : processMetadata now payload = .error) :
    ((handleUpdateAvailable "controlled" now payload).notification.isSome =
      true) ∧
    (handleUpdateAvailable "controlled" now payload).events.countP
      (fun e => e.eventAction == "sw-update-notify") = 1 := by
  unfold handleUpdateAvailable
  rw [h]
  simp [destructuredMeta, JSNum.truthy, sendEventOf, List.countP_cons]

/-- Witness for C2 at the empty payload. -/
theorem error_payload_notifies_when_controlled_witness :
    ((handleUpdateAvailable "controlled" 0 payloadEmpty).notification.isSome =
      true) ∧
    (handleUpdateAvailable "controlled" 0 payloadEmpty).events.countP
      (fun e => e.eventAction == "sw-update-notify") = 1 :=
  error_payload_notifies_when_controlled 0 payloadEmpty rfl

/-- C9: an `installed` event that is an update of an existing installation
sends no message at all, in particular no `CACHE_URLS` request. -/
theorem update_install_sends_no_cache_urls (page : PageResources) :
    installedHandler true page = none := rfl

/-- C10: on a first install the handler sends one `CACHE_URLS` message whose
`urlsToCache` list has the page URL first, wraps every resource URL
containing `google-analytics.com/analytics.js` as a `[url, {mode:
'no-cors'}]` pair, and lists every other resource as a bare URL string. -/
theorem first_install_cache_urls_shape (page : PageResources) :
    installedHandler false page =
      some { type := "CACHE_URLS", urlsToCache := urlsToCache page } ∧
    (urlsToCache page).head? = some (CacheEntry.url page.href) ∧
    (urlsToCache page).length = page.resources.length + 1 ∧
    ∀ (i : Nat), (h : i < page.resources.length) →
      (urlsToCache page)[i + 1]? =
        some
          (if jsIncludes page.resources[i] "google-analytics.com/analytics.js"
           then CacheEntry.urlWithMode page.resources[i] "no-cors"
           else CacheEntry.url page.resources[i]) := by
  refine ⟨rfl, rfl, by simp [urlsToCache], ?_⟩
  intro i h
  simp [urlsToCache, List.getElem?_map, List.getElem?_eq_getElem h]

/-- Witness for C10 on a page with one analytics resource and one other. -/
theorem first_install_cache_urls_shape_witness :
    (urlsToCache ⟨"https://example.com/",
        ["https://www.google-analytics.com/analytics.js",
         "https://example.com/a.css"]⟩)[1]? =
      some (CacheEntry.urlWithMode
        "https://www.google-analytics.com/analytics.js" "no-cors") ∧
    (urlsToCache ⟨"https://example.com/",
        ["https://www.google-analytics.com/analytics.js",
         "https://example.com/a.css"]⟩)[2]? =
      some (CacheEntry.url "https://example.com/a.css") := by
  have h1 := (first_install_cache_urls_shape ⟨"https://example.com/",
    ["https://www.google-analytics.com/analytics.js",
     "https://example.com/a.css"]⟩).2.2.2 0 (by decide)
  have h2 := (first_install_cache_urls_shape ⟨"https://example.com/",
    ["https://www.google-analytics.com/analytics.js",
     "https://example.com/a.css"]⟩).2.2.2 1 (by decide)
  refine ⟨?_, ?_⟩
  · rw [h1]; decide
  · rw [h2]; decide

/-- C7 counterexample: on an uncontrolled page the `GET_METADATA` message is
still sent — the sentinel `resolve` on line 17 is not followed by a `return`,
so `wb.messageSW` on line 20 runs unconditionally. -/
theorem uncontrolled_still_sends_get_metadata :
    "GET_METADATA" ∈
      (setSiteVersionOrTimeout ⟨"uncontrolled", none⟩).messagesSent := by
  decide

/-- C7 (amended): on an uncontrolled page `setSiteVersionOrTimeout` resolves
immediately (at time 0) with the unknown sentinel and records it as the one
site-version dimension set; the `GET_METADATA` message is still sent, and its
reply — which would lose the race — is discarded. -/
theorem uncontrolled_site_version_immediate_sentinel (env : SiteVersionEnv)
    (h : env.initialSWState ≠ "controlled") :
    (setSiteVersionOrTimeout env).resolvedAt = 0 ∧
    (setSiteVersionOrTimeout env).gaSets = [(SITE_VERSION, NULL_VALUE)] ∧
    (setSiteVersionOrTimeout env).messagesSent = ["GET_METADATA"] := by
  obtain ⟨st, reply⟩ := env
  simp only at h
  cases reply with
  | none => simp [setSiteVersionOrTimeout, svResolveCalls, firstResolve, h]
  | some r =>
    obtain ⟨t, v⟩ := r
    by_cases h3 : 3000 < t <;>
      simp [setSiteVersionOrTimeout, svResolveCalls, firstResolve, h, h3]

/-- Witness for C7 at an uncontrolled page with an eventual reply. -/
theorem uncontrolled_site_version_immediate_sentinel_witness :
    (setSiteVersionOrTimeout ⟨"uncontrolled", some (100, "1.0.0")⟩).resolvedAt
      = 0 ∧
    (setSiteVersionOrTimeout ⟨"uncontrolled",
      some (100, "1.0.0")⟩).gaSets = [(SITE_VERSION, NULL_VALUE)] ∧
    (setSiteVersionOrTimeout ⟨"uncontrolled",
      some (100, "1.0.0")⟩).messagesSent = ["GET_METADATA"] :=
  uncontrolled_site_version_immediate_sentinel
    ⟨"uncontrolled", some (100, "1.0.0")⟩ (by decide)

/-- C8: when the worker's reply does not arrive within 3000 ms (or never
arrives), the site-version dimension is set exactly once, to the unknown
sentinel; the late reply loses the race and is discarded, never causing a
second set. -/
theorem late_reply_single_sentinel_set (env : SiteVersionEnv)
    (h : ∀ t v, env.workerReply = some (t, v) → 3000 < t) :
    (setSiteVersionOrTimeout env).gaSets = [(SITE_VERSION, NULL_VALUE)] := by
  obtain ⟨st, reply⟩ := env
  cases reply with
  | none =>
    by_cases hc : st = "controlled" <;>
      simp [setSiteVersionOrTimeout, svResolveCalls, firstResolve, hc]
  | some r =>
    obtain ⟨t, v⟩ := r
    have ht : 3000 < t := h t v rfl
    by_cases hc : st = "controlled" <;>
      simp [setSiteVersionOrTimeout, svResolveCalls, firstResolve, hc, ht,
        Nat.lt_asymm ht]

/-- Witness for C8 at a controlled page whose reply arrives at 5000 ms. -/
theorem late_reply_single_sentinel_set_witness :
    (setSiteVersionOrTimeout ⟨"controlled", some (5000, "9.9.9")⟩).gaSets =
      [(SITE_VERSION, NULL_VALUE)] :=
  late_reply_single_sentinel_set ⟨"controlled", some (5000, "9.9.9")⟩
    (by intro t v hv; injection hv with h2; injection h2 with h3 h4; omega)

/-- C1 counterexample: the guard on line 163 tests JavaScript truthiness of
the new major version, so a known new major version `0` escapes suppression:
for old `"3.2.1"` and new `"0.1.0"` the majors are the known numbers `3` and
`0`, `0 <= 3` holds, yet the controlled-page handler still notifies. -/
theorem zero_new_major_escapes_suppression :
    (destructuredMeta (processMetadata 0
        (payloadOf "3.2.1" "0.1.0"))).oldMajorVersion = .num 3 ∧
    (destructuredMeta (processMetadata 0
        (payloadOf "3.2.1" "0.1.0"))).newMajorVersion = .num 0 ∧
    JSNum.jsLe (.num 0) (.num 3) = true ∧
    (handleUpdateAvailable "controlled" 0
        (payloadOf "3.2.1" "0.1.0")).notification ≠ none := by
  decide

/-- C1 (amended): if both major versions parse to known numbers, the new one
is nonzero (truthy) and `newMajor <= oldMajor`, the notification is
suppressed for every worker state; in particular `"3.2.1" -> "3.5.0"` is
suppressed on a controlled page, and `"3.2.1" -> "5.0.0"` is not. -/
theorem minor_or_lower_update_suppressed (initialSWState : String) (now : Int)
    (payload : Payload) (f : MetaFields) (a b : Int)
    (hp : processMetadata now payload = .fields f)
    (ha : f.oldMajorVersion = .num a) (hb : f.newMajorVersion = .num b)
    (hb0 : b ≠ 0) (hle : b ≤ a) :
    (handleUpdateAvailable initialSWState now payload).notification = none ∧
    (handleUpdateAvailable "controlled" 0
        (payloadOf "3.2.1" "3.5.0")).notification = none ∧
    (handleUpdateAvailable "controlled" 0
        (payloadOf "3.2.1" "5.0.0")).notification ≠ none := by
  refine ⟨?_, by decide, by decide⟩
  unfold handleUpdateAvailable
  rw [hp]
  have htr : f.newMajorVersion.truthy = true := by
    rw [hb]; simp [JSNum.truthy, hb0]
  have hle2 : f.newMajorVersion.jsLe f.oldMajorVersion = true := by
    rw [hb, ha]; simp [JSNum.jsLe, hle]
  simp [destructuredMeta, htr, hle2]

/-- Witness for C1 at `"3.2.1" -> "2.0.0"` on a controlled page. -/
theorem minor_or_lower_update_suppressed_witness :
    (handleUpdateAvailable "controlled" 0
        (payloadOf "3.2.1" "2.0.0")).notification = none :=
  (minor_or_lower_update_suppressed "controlled" 0 (payloadOf "3.2.1" "2.0.0")
    ⟨"3.2.1", .num 3, "2.0.0", .num 2, .num 0⟩ 3 2 (by decide) rfl rfl
    (by decide) (by decide)).1

/-- JavaScript `v || 0` on an integer is the integer itself. -/
theorem jsOr_num_zero (v : Int) : (JSNum.num v).jsOr (.num 0) = .num v := by
  by_cases h : v = 0 <;> simp [JSNum.jsOr, JSNum.truthy, h]

/-- The value the `sendEvent` closure attaches equals the spec's expected
value: elapsed time since the new build, or 0 when unknown. -/
theorem sendEventOf_value (now : Int) (p : Payload) (c a : String) :
    (sendEventOf (destructuredMeta (processMetadata now p)) c a).eventValue =
      expectedUpdateValue now p := by
  obtain ⟨o, n⟩ := p
  cases o with
  | none =>
    simp [processMetadata, processMetadataBody, destructuredMeta, sendEventOf,
      expectedUpdateValue, JSNum.jsOr, JSNum.truthy]
  | some om =>
    cases n with
    | none =>
      simp [processMetadata, processMetadataBody, destructuredMeta,
        sendEventOf, expectedUpdateValue, JSNum.jsOr, JSNum.truthy]
    | some nm =>
      obtain ⟨ver, bt⟩ := nm
      cases bt with
      | none =>
        simp [processMetadata, processMetadataBody, destructuredMeta,
          sendEventOf, expectedUpdateValue, JSNum.jsOr, JSNum.truthy]
      | some b =>
        simp [processMetadata, processMetadataBody, destructuredMeta,
          sendEventOf, expectedUpdateValue, jsOr_num_zero]

/-- The label the `sendEvent` closure attaches equals the spec's expected
label: old and new version strings combined, sentinel when unavailable. -/
theorem sendEventOf_label (now : Int) (p : Payload) (c a : String) :
    (sendEventOf (destructuredMeta (processMetadata now p)) c a).eventLabel =
      expectedUpdateLabel p := by
  obtain ⟨o, n⟩ := p
  cases o with
  | none =>
    simp [processMetadata, processMetadataBody, destructuredMeta, sendEventOf,
      expectedUpdateLabel]
  | some om =>
    cases n with
    | none =>
      simp [processMetadata, processMetadataBody, destructuredMeta,
        sendEventOf, expectedUpdateLabel]
    | some nm =>
      obtain ⟨ver, bt⟩ := nm
      cases ver with
      | none =>
        simp [processMetadata, processMetadataBody, destructuredMeta,
          sendEventOf, expectedUpdateLabel]
      | some nv =>
        simp [processMetadata, processMetadataBody, destructuredMeta,
          sendEventOf, expectedUpdateLabel]

/-- C6: every run of the `UPDATE_AVAILABLE` handler — notified or not —
emits exactly one `sw-update` telemetry event, whose value is the elapsed
time since the new version was built (0 when unknown) and whose label
combines the old and new version strings, with the unknown sentinel when
either side is unavailable. -/
theorem exactly_one_sw_update_event (initialSWState : String) (now : Int)
    (payload : Payload) :
    (handleUpdateAvailable initialSWState now payload).events.filter
        (fun e => e.eventAction == "sw-update") =
      [{ eventCategory := "Service Worker", eventAction := "sw-update",
         eventValue := expectedUpdateValue now payload,
         eventLabel := expectedUpdateLabel payload }] := by
  have hv := sendEventOf_value now payload "Service Worker" "sw-update"
  have hl := sendEventOf_label now payload "Service Worker" "sw-update"
  obtain ⟨B, hB⟩ :
      ∃ B : Bool, (handleUpdateAvailable initialSWState now payload).events =
        [sendEventOf (destructuredMeta (processMetadata now payload))
            "Service Worker" "sw-update"] ++
          (if B then
            [sendEventOf (destructuredMeta (processMetadata now payload))
              "Messages" "sw-update-notify"]
          else []) := ⟨_, rfl⟩
  rw [hB]
  simp only [sendEventOf] at hv hl ⊢
  simp only [ne_eq, ite_not] at hl
  cases B <;>
    simp [List.filter_append, List.filter_cons, hv, hl]


/-- Helper: `dropWhile` leaves a list alone when no element satisfies `p`. -/
theorem dropWhile_eq_self_of (p : Char → Bool) (l : List Char)
    (h : ∀ c ∈ l, p c = false) : l.dropWhile p = l := by
  cases l with
  | nil => rfl
  | cons a l => simp [List.dropWhile, h a (by simp)]

/-- Helper: trimming changes nothing when no character is whitespace. -/
theorem jsTrim_eq_self (l : List Char)
    (h : ∀ c ∈ l, jsWhitespace c = false) : jsTrim l = l := by
  unfold jsTrim
  rw [dropWhile_eq_self_of _ _ h,
    dropWhile_eq_self_of _ _ (fun c hc => h c (List.mem_reverse.mp hc)),
    List.reverse_reverse]

/-- Helper: a digit character is not whitespace. -/
theorem digit_not_whitespace (c : Char) (h : c.isDigit = true) :
    jsWhitespace c = false := by
  by_contra hw
  rw [Bool.not_eq_false] at hw
  unfold jsWhitespace at hw
  simp only [Bool.or_eq_true, decide_eq_true_eq] at hw
  rcases hw with ((((rfl | rfl) | rfl) | rfl) | rfl) | rfl <;>
    exact absurd h (by decide)

/-- Helper: a prefix of an all-digit list never equals a list containing a
non-digit. -/
theorem take_ne_of_digits (l : List Char) (h : ∀ c ∈ l, c.isDigit = true)
    (n : Nat) (target : List Char) (ht : target.all (·.isDigit) = false) :
    l.take n ≠ target := by
  intro he
  have hall : target.all (·.isDigit) = true := by
    rw [← he, List.all_eq_true]
    exact fun c hc => h c (List.take_subset n l hc)
  rw [hall] at ht
  cases ht

/-- Helper: an all-digit list never equals a list containing a non-digit. -/
theorem ne_of_digits (l : List Char) (h : ∀ c ∈ l, c.isDigit = true)
    (target : List Char) (ht : target.all (·.isDigit) = false) :
    l ≠ target := by
  intro he
  have hall : target.all (·.isDigit) = true := by
    rw [← he, List.all_eq_true]
    exact h
  rw [hall] at ht
  cases ht

/-- Helper: `takeWhile` keeps the whole list when every element satisfies
`p`. -/
theorem takeWhile_eq_self_of (p : Char → Bool) (l : List Char)
    (h : ∀ c ∈ l, p c = true) : l.takeWhile p = l := by
  induction l with
  | nil => rfl
  | cons a l ih =>
    simp [List.takeWhile_cons, h a (by simp),
      ih (fun c hc => h c (by simp [hc]))]

/-- Helper: `dropWhile` drops the whole list when every element satisfies
`p`. -/
theorem dropWhile_eq_nil_of (p : Char → Bool) (l : List Char)
    (h : ∀ c ∈ l, p c = true) : l.dropWhile p = [] := by
  induction l with
  | nil => rfl
  | cons a l ih =>
    simp [List.dropWhile_cons, h a (by simp),
      ih (fun c hc => h c (by simp [hc]))]

/-- Helper: the Horner fold over an all-digit list computes the decimal
value (with a seed accumulator in the high positions). -/
theorem foldl_digits_acc (l : List Char) (h : ∀ c ∈ l, c.isDigit = true)
    (a : Nat) :
    l.foldl (fun acc c => acc.bind fun x => (decDigitVal? c).map
        fun d => x * 10 + d) (some a) =
      some (a * 10 ^ l.length +
        Nat.ofDigits 10 ((l.map (fun c => c.toNat - 48)).reverse)) := by
  induction l generalizing a with
  | nil => simp [Nat.ofDigits_nil]
  | cons c l ih =>
    have hc : c.isDigit = true := h c (by simp)
    rw [List.foldl_cons]
    have hstep : (some a).bind (fun x => (decDigitVal? c).map
        fun d => x * 10 + d) = some (a * 10 + (c.toNat - 48)) := by
      simp [decDigitVal?, hc]
    rw [hstep, ih (fun x hx => h x (List.mem_cons_of_mem c hx))]
    congr 1
    rw [List.map_cons, List.reverse_cons, Nat.ofDigits_append]
    simp [Nat.ofDigits_singleton, List.length_reverse]
    ring

/-- Helper: on a non-empty all-digit list the base-10 digit parser returns
the decimal value of the digits. -/
theorem parseRadixDigits_digits (l : List Char) (hne : l ≠ [])
    (h : ∀ c ∈ l, c.isDigit = true) :
    parseRadixDigits 10 decDigitVal? l =
      some (Nat.ofDigits 10 ((l.map (fun c => c.toNat - 48)).reverse)) := by
  unfold parseRadixDigits
  rw [if_neg (by simpa using hne)]
  simpa using foldl_digits_acc l h 0

/-- Helper: a non-empty all-digit character list parses as the decimal
number it spells. -/
theorem parseNumeric_digits (c : Char) (cs : List Char)
    (h : ∀ x ∈ c :: cs, x.isDigit = true) :
    parseNumeric (c :: cs) =
      some (.num (Nat.ofDigits 10
        (((c :: cs).map (fun x => x.toNat - 48)).reverse))) := by
  have h1 : (c :: cs).take 1 ≠ ['+'] := take_ne_of_digits _ h 1 _ (by decide)
  have h2 : (c :: cs).take 1 ≠ ['-'] := take_ne_of_digits _ h 1 _ (by decide)
  have h3 : (c :: cs).take 2 ≠ ['0', 'x'] :=
    take_ne_of_digits _ h 2 _ (by decide)
  have h4 : (c :: cs).take 2 ≠ ['0', 'X'] :=
    take_ne_of_digits _ h 2 _ (by decide)
  have h5 : (c :: cs).take 2 ≠ ['0', 'b'] :=
    take_ne_of_digits _ h 2 _ (by decide)
  have h6 : (c :: cs).take 2 ≠ ['0', 'B'] :=
    take_ne_of_digits _ h 2 _ (by decide)
  have h7 : (c :: cs).take 2 ≠ ['0', 'o'] :=
    take_ne_of_digits _ h 2 _ (by decide)
  have h8 : (c :: cs).take 2 ≠ ['0', 'O'] :=
    take_ne_of_digits _ h 2 _ (by decide)
  have h9 : c :: cs ≠ "Infinity".data := ne_of_digits _ h _ (by decide)
  unfold parseNumeric parseSignable parseDecimal
  rw [if_neg h1, if_neg h2,
    if_neg (by simp only [Bool.or_eq_true, decide_eq_true_eq]; rintro (hx | hx); exacts [h3 hx, h4 hx]),
    if_neg (by simp only [Bool.or_eq_true, decide_eq_true_eq]; rintro (hx | hx); exacts [h5 hx, h6 hx]),
    if_neg (by simp only [Bool.or_eq_true, decide_eq_true_eq]; rintro (hx | hx); exacts [h7 hx, h8 hx]),
    if_neg h9]
  rw [takeWhile_eq_self_of _ _ h, dropWhile_eq_nil_of _ _ h,
    parseRadixDigits_digits _ (by simp) h]
  simp
  norm_cast

/-- Helper: `Number(s)` of a non-empty all-digit string is the decimal value
of its digits. -/
theorem jsStringToNumber_digits (s : String) (hne : s.data ≠ [])
    (h : ∀ c ∈ s.data, c.isDigit = true) :
    jsStringToNumber s =
      .num (Nat.ofDigits 10 ((s.data.map (fun c => c.toNat - 48)).reverse)) := by
  unfold jsStringToNumber
  rw [jsTrim_eq_self s.data (fun c hc => digit_not_whitespace c (h c hc))]
  cases hd : s.data with
  | nil => exact absurd hd hne
  | cons c cs =>
    rw [hd] at h
    show (parseNumeric (c :: cs)).getD JSNum.nan = _
    rw [parseNumeric_digits c cs h]
    rfl

/-- C4 counterexample: `Number('')` is `0`, not `NaN`, so a version string
whose first dot-delimited segment is empty (such as `""`, the fallback for a
missing version) gets major version `0` even though the segment is not
numeric; the claim's "non-numeric implies NaN" fails there. -/
theorem empty_version_major_is_zero :
    majorVersionOf "" = .num 0 ∧ JSNum.num 0 ≠ .nan ∧
    (destructuredMeta (processMetadata 0
      ⟨some ⟨none, some 0⟩, some (mdV "1.0.0")⟩)).oldMajorVersion = .num 0 := by
  decide

/-- C4 (amended): the major version is the JavaScript `Number` conversion of
the first dot-delimited segment: a segment spelling a non-empty digit string
yields its decimal value, a segment that trims to the empty string yields
`0` (not `NaN`), and a non-empty trimmed segment that is not a numeric
literal yields `NaN`. -/
theorem major_version_from_first_segment (version : String) :
    (majorVersionOf version = jsStringToNumber (jsSplitHead version)) ∧
    ((jsSplitHead version).data ≠ [] →
      (∀ c ∈ (jsSplitHead version).data, c.isDigit = true) →
      majorVersionOf version =
        .num (Nat.ofDigits 10 (((jsSplitHead version).data.map
          (fun c => c.toNat - 48)).reverse))) ∧
    (jsTrim (jsSplitHead version).data = [] →
      majorVersionOf version = .num 0) ∧
    (∀ c cs, jsTrim (jsSplitHead version).data = c :: cs →
      parseNumeric (c :: cs) = none →
      majorVersionOf version = .nan) := by
  refine ⟨rfl, ?_, ?_, ?_⟩
  · intro hne hall
    exact jsStringToNumber_digits _ hne hall
  · intro h0
    unfold majorVersionOf jsStringToNumber
    rw [h0]
  · intro c cs hcons hnone
    unfold majorVersionOf jsStringToNumber
    rw [hcons]
    show (parseNumeric (c :: cs)).getD JSNum.nan = _
    rw [hnone]
    rfl

/-- Witness for C4 at the version string `"42.1"`. -/
theorem major_version_from_first_segment_witness :
    majorVersionOf "42.1" = .num 42 := by
  have h := (major_version_from_first_segment "42.1").2.1 (by decide) (by decide)
  rw [h]
  decide

end SwInit
